import Mathlib

/-!
Shallow embedding of the financial calculation engine of the business-acquisition
analyzer (src/src/App.tsx).  JavaScript numbers are modelled as rationals (ℚ);
Math.round is modelled as floor (x + 1/2), which matches JS round-half-up
semantics on all inputs including negatives.  Inputs are modelled after the
Input Normalizer stage: the engine receives already-parsed numeric values
(the form strings stripped of separators and parsed).  Divisions whose JS
evaluation would be NaN or Infinity (zero divisor) are modelled as Option
where a claim depends on them (calculateIRR); elsewhere ℚ division by zero
yields 0.
-/

set_option maxHeartbeats 1000000

namespace BizAcq

/-- JS Math.round: round half toward positive infinity. -/
def jsRound (q : ℚ) : ℤ := ⌊q + 1 / 2⌋

/-- The industry enumeration offered by the form. -/
inductive Industry where
  | tech
  | services
  | retail
  | manufacturing
  | construction
  | healthcare
  | food
  | other
  deriving DecidableEq, Repr

/-- Normalized form values (FormValues after the parseInt stripping stage).
downPayment and sellerNote hold percentage points, as in the source form. -/
structure FormValues where
  askingPrice : ℚ
  revenue : ℚ
  ebitda : ℚ
  ownerSalary : ℚ
  recurringRevenue : ℚ
  topCustomerRevenue : ℚ
  yearsInBusiness : ℚ
  downPayment : ℚ
  sellerNote : ℚ
  interestRate : ℚ
  loanTerm : ℕ
  industry : Industry
  deriving DecidableEq, Repr

/-- calculateAnnualDebtService: standard fixed-rate amortization,
monthly rate = rate/1200, payments = years*12, annual service = 12 monthly
payments. -/
def calculateAnnualDebtService (principal : ℚ) (rate : ℚ) (years : ℕ) : ℚ :=
  let monthlyRate := rate / 1200
  let numberOfPayments := years * 12
  let monthlyPayment := principal *
    (monthlyRate * (1 + monthlyRate) ^ numberOfPayments) /
    ((1 + monthlyRate) ^ numberOfPayments - 1)
  monthlyPayment * 12

/-- calculateRiskScore: sequential penalties and industry adjustment,
clamped by max(0, min(100, score)). -/
def calculateRiskScore (values : FormValues) : ℚ :=
  let score : ℚ := 100
  let score := if values.revenue > 2000000 then score - (values.revenue - 2000000) * 1.5 else score
  let score := if values.ebitda / values.askingPrice > 0.3 then score - 10 else score
  let score :=
    match values.industry with
    | Industry.tech => score + 10
    | Industry.retail => score + 5
    | Industry.manufacturing => score - 10
    | _ => score
  let score := score - values.recurringRevenue * 0.5
  let score := score - min (values.askingPrice * 2) 20
  max 0 (min 100 score)

/-- calculateGrowthPotential: weighted sum, no clamping in the source. -/
def calculateGrowthPotential (values : FormValues) : ℚ :=
  let historicalWeight : ℚ := 0.4
  let industryWeight : ℚ := 0.3
  let marketPositionWeight : ℚ := 0.3
  let marketScore : ℚ :=
    match values.industry with
    | Industry.tech => 10
    | Industry.retail => 7.5
    | Industry.manufacturing => 5
    | _ => 0
  values.recurringRevenue * historicalWeight +
    values.recurringRevenue * industryWeight +
    marketScore * marketPositionWeight

/-- calculateMarketScore: industry base plus capped recurring-revenue bonus
minus capped competition penalty, clamped to [0,100]. -/
def calculateMarketScore (values : FormValues) : ℚ :=
  let score : ℚ := 0
  let score :=
    match values.industry with
    | Industry.tech => score + 40
    | Industry.retail => score + 30
    | Industry.manufacturing => score + 20
    | _ => score
  let score := score + min (values.recurringRevenue * 2) 30
  let score := score - min (values.askingPrice * 2) 20
  max 0 (min 100 score)

/-- calculateCompetitiveThreat: raw sum capped at 100, no lower clamp. -/
def calculateCompetitiveThreat (values : FormValues) : ℚ :=
  let threat : ℚ := 0
  let threat := threat + values.askingPrice * 5
  let threat :=
    match values.industry with
    | Industry.tech => threat + 10
    | Industry.retail => threat + 20
    | Industry.manufacturing => threat + 30
    | _ => threat
  let threat := threat + values.recurringRevenue * 2
  min 100 threat

/-- The declining growth-rate schedule declared in calculateProjectedCashFlows. -/
def growthRates : List ℚ := [0.15, 0.12, 0.10, 0.08, 0.06]

/-- calculateProjectedCashFlows: pushes -downPayment, then loops
year = 0 .. projectedYears-1 (projectedYears = 5), growing EBITDA by
growthRates[year-1] and pushing the rounded free cash flow whenever year > 0.
The fold carries (accumulated list, current EBITDA), mirroring the mutable
loop of the source. -/
def calculateProjectedCashFlows (values : FormValues) : List ℚ :=
  let projectedYears : ℕ := 5
  let askingPrice := values.askingPrice
  let downPaymentPercent := values.downPayment / 100
  let sellerNotePercent := values.sellerNote / 100
  let interestRate := values.interestRate
  let loanTerm := values.loanTerm
  let ebitda := values.ebitda
  let ownerSalary := values.ownerSalary
  let downPayment := askingPrice * downPaymentPercent
  let sellerNote := askingPrice * sellerNotePercent
  let bankLoan := askingPrice - downPayment - sellerNote
  let totalDebtService := calculateAnnualDebtService (bankLoan + sellerNote) interestRate loanTerm
  let state := (List.range projectedYears).foldl
    (fun (acc : List ℚ × ℚ) year =>
      if year > 0 then
        let currentEbitda := acc.2 * (1 + growthRates.getD (year - 1) 0)
        let freeCashFlow := currentEbitda - totalDebtService - ownerSalary
        (acc.1 ++ [(jsRound freeCashFlow : ℚ)], currentEbitda)
      else acc)
    ([-downPayment], ebitda)
  state.1

/-- Auxiliary recursion mirroring the indexed reduce of calculateNPV. -/
def npvAux (discountRate : ℚ) : List ℚ → ℕ → ℚ → ℚ
  | [], _, npv => npv
  | cashFlow :: rest, year, npv =>
      npvAux discountRate rest (year + 1) (npv + cashFlow / (1 + discountRate) ^ year)

/-- calculateNPV: reduce over the cash flows with the year index as exponent. -/
def calculateNPV (cashFlows : List ℚ) (discountRate : ℚ) : ℚ :=
  npvAux discountRate cashFlows 0 0

/-- calculateIRR: mean of the cash flows after year 0 divided by the absolute
year-0 flow, times 100.  The source has no guard; a zero divisor (or an
empty/singleton list, where JS indexing and 0/0 give NaN) evaluates in JS to
NaN or Infinity, modelled here as none. -/
def calculateIRR (cashFlows : List ℚ) : Option ℚ :=
  match cashFlows with
  | [] => none
  | c0 :: rest =>
      let totalInvestment := |c0|
      if rest.length = 0 ∨ totalInvestment = 0 then none
      else
        let averageReturn := rest.sum / (rest.length : ℚ)
        some (averageReturn / totalInvestment * 100)

/-- CalculationResults as returned by calculateMetrics.  The echo fields that
the source copies through as strings are carried as their numeric values
(parse and display-format round-trip), and industry as the enumeration. -/
structure CalculationResults where
  ebitdaMultiple : ℚ
  revenueMultiple : ℚ
  priceToEarnings : ℚ
  workingCapitalRatio : ℚ
  debtServiceCoverageRatio : ℚ
  returnOnInvestment : ℚ
  paybackPeriod : ℚ
  riskScore : ℚ
  growthPotential : ℚ
  marketPositionScore : ℚ
  competitiveThreat : ℚ
  projectedCashFlows : List ℚ
  netPresentValue : ℚ
  internalRateOfReturn : Option ℚ
  totalDebtService : ℚ
  bankLoan : ℚ
  sellerNote : ℚ
  revenue : ℚ
  recurringRevenue : ℚ
  topCustomerRevenue : ℚ
  yearsInBusiness : ℚ
  industry : Industry
  deriving DecidableEq, Repr

/-- calculateMetrics: the main metrics engine. -/
def calculateMetrics (values : FormValues) : CalculationResults :=
  let askingPrice := values.askingPrice
  let revenue := values.revenue
  let ebitda := values.ebitda
  let downPaymentPercent := values.downPayment / 100
  let sellerNotePercent := values.sellerNote / 100
  let interestRate := values.interestRate
  let loanTerm := values.loanTerm
  let downPayment := askingPrice * downPaymentPercent
  let sellerNote := askingPrice * sellerNotePercent
  let bankLoan := askingPrice - downPayment - sellerNote
  let bankDebtService := calculateAnnualDebtService bankLoan interestRate loanTerm
  let sellerDebtService := calculateAnnualDebtService sellerNote interestRate loanTerm
  let totalDebtService := bankDebtService + sellerDebtService
  let ebitdaMultiple := askingPrice / ebitda
  let revenueMultiple := askingPrice / revenue
  let priceToEarnings := askingPrice / (ebitda * 0.7)
  let debtServiceCoverageRatio := ebitda / totalDebtService
  let returnOnInvestment := ebitda / askingPrice * 100
  let paybackPeriod := askingPrice / ebitda
  let riskScore := calculateRiskScore values
  let growthPotential := calculateGrowthPotential values
  let marketPositionScore := calculateMarketScore values
  let competitiveThreat := calculateCompetitiveThreat values
  let projectedCashFlows := calculateProjectedCashFlows values
  let netPresentValue := calculateNPV projectedCashFlows 0.15
  let internalRateOfReturn := calculateIRR projectedCashFlows
  { ebitdaMultiple := ebitdaMultiple
    revenueMultiple := revenueMultiple
    priceToEarnings := priceToEarnings
    workingCapitalRatio := 0
    debtServiceCoverageRatio := debtServiceCoverageRatio
    returnOnInvestment := returnOnInvestment
    paybackPeriod := paybackPeriod
    riskScore := riskScore
    growthPotential := growthPotential
    marketPositionScore := marketPositionScore
    competitiveThreat := competitiveThreat
    projectedCashFlows := projectedCashFlows
    netPresentValue := netPresentValue
    internalRateOfReturn := internalRateOfReturn
    totalDebtService := totalDebtService
    bankLoan := bankLoan
    sellerNote := sellerNote
    revenue := values.revenue
    recurringRevenue := values.recurringRevenue
    topCustomerRevenue := values.topCustomerRevenue
    yearsInBusiness := values.yearsInBusiness
    industry := values.industry }

/-- One constructor per push site of analyzeDeal; the interpolated numeric
display values of the source strings are dropped (they are functions of the
same metrics fields and play no role in the analysed properties). -/
inductive Finding where
  | belowMarketValuation
  | premiumValuation
  | techModernization
  | marketingEnhancement
  | strongDebtCoverage
  | tightDebtCoverage
  | highRecurringRevenue
  | lowRecurringRevenue
  | increaseServiceContracts
  | highCustomerConcentration
  | customerDiversificationNeeded
  | wellDiversifiedCustomerBase
  | establishedBusiness
  | limitedOperatingHistory
  | operationalImprovements
  | growingHVACDemand
  | energyEfficiencyUpgrades
  | laborMarketChallenges
  | supplyChainRisks
  | seasonalFluctuations
  deriving DecidableEq, Repr

/-- The recommendation enumeration of DealAnalysis. -/
inductive Recommendation where
  | strongBuy
  | buy
  | neutral
  | caution
  | pass
  deriving DecidableEq, Repr

/-- DealAnalysis as returned by analyzeDeal. -/
structure DealAnalysis where
  recommendation : Recommendation
  color : String
  strengths : List Finding
  weaknesses : List Finding
  opportunities : List Finding
  threats : List Finding
  deriving DecidableEq, Repr

/-- calculateDealScore: baseline 70, DSCR and valuation adjustments via the
else-if chains of the source, plus 3 per strength, minus 3 per weakness,
then min(100, max(0, score)). -/
def calculateDealScore (metrics : CalculationResults)
    (strengthCount weaknessCount : ℕ) : ℚ :=
  let score : ℚ := 70
  let score :=
    if metrics.debtServiceCoverageRatio ≥ 2 then score + 10
    else if metrics.debtServiceCoverageRatio ≥ 1.5 then score + 5
    else if metrics.debtServiceCoverageRatio < 1.25 then score - 10
    else score
  let score :=
    if metrics.ebitdaMultiple ≤ 4 then score + 10
    else if metrics.ebitdaMultiple ≥ 7 then score - 10
    else score
  let score := score + (strengthCount : ℚ) * 3
  let score := score - (weaknessCount : ℚ) * 3
  min 100 (max 0 score)

/-- analyzeDeal: builds the four SWOT lists by the independent rule checks of
the source, in source push order, then derives the recommendation from
calculateDealScore applied to the strength and weakness counts. -/
def analyzeDeal (metrics : CalculationResults) : DealAnalysis :=
  let recurringRevenuePercent := metrics.recurringRevenue / metrics.revenue * 100
  let customerConcentration := metrics.topCustomerRevenue / metrics.revenue * 100
  let strengths : List Finding :=
    (if metrics.ebitdaMultiple ≤ 4 then [Finding.belowMarketValuation] else []) ++
    (if metrics.debtServiceCoverageRatio ≥ 1.5 then [Finding.strongDebtCoverage] else []) ++
    (if recurringRevenuePercent ≥ 30 then [Finding.highRecurringRevenue] else []) ++
    (if customerConcentration > 20 then [] else [Finding.wellDiversifiedCustomerBase]) ++
    (if metrics.yearsInBusiness ≥ 10 then [Finding.establishedBusiness] else [])
  let weaknesses : List Finding :=
    (if metrics.ebitdaMultiple ≤ 4 then []
     else if metrics.ebitdaMultiple ≥ 7 then [Finding.premiumValuation] else []) ++
    [Finding.techModernization, Finding.marketingEnhancement] ++
    (if metrics.debtServiceCoverageRatio ≥ 1.5 then []
     else if metrics.debtServiceCoverageRatio < 1.25 then [Finding.tightDebtCoverage] else []) ++
    (if recurringRevenuePercent ≥ 30 then [] else [Finding.lowRecurringRevenue]) ++
    (if customerConcentration > 20 then [Finding.customerDiversificationNeeded] else []) ++
    (if metrics.yearsInBusiness ≥ 10 then [] else [Finding.limitedOperatingHistory]) ++
    (if metrics.industry = Industry.services then [Finding.seasonalFluctuations] else [])
  let opportunities : List Finding :=
    (if recurringRevenuePercent ≥ 30 then [] else [Finding.increaseServiceContracts]) ++
    (if metrics.yearsInBusiness ≥ 10 then [] else [Finding.operationalImprovements]) ++
    (if metrics.industry = Industry.services then
      [Finding.growingHVACDemand, Finding.energyEfficiencyUpgrades] else [])
  let threats : List Finding :=
    (if customerConcentration > 20 then [Finding.highCustomerConcentration] else []) ++
    (if metrics.industry = Industry.services then
      [Finding.laborMarketChallenges, Finding.supplyChainRisks] else [])
  let score := calculateDealScore metrics strengths.length weaknesses.length
  let recommendation :=
    if score ≥ 85 then Recommendation.strongBuy
    else if score ≥ 70 then Recommendation.buy
    else if score ≥ 50 then Recommendation.neutral
    else if score ≥ 30 then Recommendation.caution
    else Recommendation.pass
  let color :=
    if score ≥ 85 then "text-green-500"
    else if score ≥ 70 then "text-green-400"
    else if score ≥ 50 then "text-yellow-500"
    else if score ≥ 30 then "text-orange-500"
    else "text-red-500"
  { recommendation := recommendation
    color := color
    strengths := strengths
    weaknesses := weaknesses
    opportunities := opportunities
    threats := threats }

/-- The recommendation chain of analyzeDeal as a function of the score. -/
def recommendationForScore (score : ℚ) : Recommendation :=
  if score ≥ 85 then Recommendation.strongBuy
  else if score ≥ 70 then Recommendation.buy
  else if score ≥ 50 then Recommendation.neutral
  else if score ≥ 30 then Recommendation.caution
  else Recommendation.pass

/-- The default form values of the source (initialValues); the interest rate
field "10.5" parses to 10 under the parseInt of the normalizer. -/
def initialValues : FormValues :=
  { askingPrice := 2500000
    revenue := 3000000
    ebitda := 450000
    ownerSalary := 150000
    recurringRevenue := 900000
    topCustomerRevenue := 300000
    yearsInBusiness := 15
    downPayment := 5
    sellerNote := 5
    interestRate := 10
    loanTerm := 10
    industry := Industry.services }

/-- Total number of SWOT findings of an analysis. -/
def totalFindings (analysis : DealAnalysis) : ℕ :=
  analysis.strengths.length + analysis.weaknesses.length +
    analysis.opportunities.length + analysis.threats.length

/-- Replace the industry of a metrics record, all other fields unchanged. -/
def setIndustry (metrics : CalculationResults) (ind : Industry) : CalculationResults :=
  { metrics with industry := ind }

/-- A sample metrics record (services industry) used to instantiate theorems
on concrete inputs. -/
def sampleMetrics : CalculationResults :=
  { ebitdaMultiple := 5
    revenueMultiple := 1
    priceToEarnings := 8
    workingCapitalRatio := 0
    debtServiceCoverageRatio := 1.4
    returnOnInvestment := 18
    paybackPeriod := 5.5
    riskScore := 50
    growthPotential := 10
    marketPositionScore := 40
    competitiveThreat := 60
    projectedCashFlows := []
    netPresentValue := 0
    internalRateOfReturn := none
    totalDebtService := 300000
    bankLoan := 2250000
    sellerNote := 125000
    revenue := 3000000
    recurringRevenue := 900000
    topCustomerRevenue := 300000
    yearsInBusiness := 15
    industry := Industry.services }

/-- The default form values with a zero down-payment percentage. -/
def zeroDownValues : FormValues :=
  { initialValues with downPayment := 0 }

/-! ## Helper lemmas -/

/-- Closed form of the projected cash-flow fold: the series the code builds is
the down-payment outflow followed by the four rounded free cash flows for
years 1 through 4 (the loop runs year = 0..4 and skips year 0, so the fifth
growth rate 6% is never consumed). -/
theorem calculateProjectedCashFlows_eq (v : FormValues) :
    calculateProjectedCashFlows v =
      [-(v.askingPrice * (v.downPayment / 100)),
       (jsRound (v.ebitda * (1 + 0.15) -
          calculateAnnualDebtService (v.askingPrice - v.askingPrice * (v.downPayment / 100))
            v.interestRate v.loanTerm - v.ownerSalary) : ℚ),
       (jsRound (v.ebitda * (1 + 0.15) * (1 + 0.12) -
          calculateAnnualDebtService (v.askingPrice - v.askingPrice * (v.downPayment / 100))
            v.interestRate v.loanTerm - v.ownerSalary) : ℚ),
       (jsRound (v.ebitda * (1 + 0.15) * (1 + 0.12) * (1 + 0.10) -
          calculateAnnualDebtService (v.askingPrice - v.askingPrice * (v.downPayment / 100))
            v.interestRate v.loanTerm - v.ownerSalary) : ℚ),
       (jsRound (v.ebitda * (1 + 0.15) * (1 + 0.12) * (1 + 0.10) * (1 + 0.08) -
          calculateAnnualDebtService (v.askingPrice - v.askingPrice * (v.downPayment / 100))
            v.interestRate v.loanTerm - v.ownerSalary) : ℚ)] := by
  have harg : v.askingPrice - v.askingPrice * (v.downPayment / 100) -
      v.askingPrice * (v.sellerNote / 100) + v.askingPrice * (v.sellerNote / 100) =
      v.askingPrice - v.askingPrice * (v.downPayment / 100) := by ring
  simp [calculateProjectedCashFlows, List.range_succ, growthRates, harg]

/-- The indexed NPV reduce at discount rate 0 adds up the remaining flows. -/
theorem npvAux_zero_rate (l : List ℚ) : ∀ (year : ℕ) (npv : ℚ),
    npvAux 0 l year npv = npv + l.sum := by
  induction l with
  | nil => intro year npv; simp [npvAux]
  | cons c rest ih =>
      intro year npv
      simp only [npvAux, ih, List.sum_cons]
      ring_nf

/-- The annuity payment is linear in the principal. -/
theorem calculateAnnualDebtService_add (p1 p2 rate : ℚ) (years : ℕ) :
    calculateAnnualDebtService p1 rate years + calculateAnnualDebtService p2 rate years =
      calculateAnnualDebtService (p1 + p2) rate years := by
  simp only [calculateAnnualDebtService]
  ring

/-- The else-if DSCR adjustment chain of calculateDealScore as a sum of the
three disjoint band contributions. -/
theorem dscrAdjust_eq (d : ℚ) :
    (if d ≥ 2 then (10 : ℚ) else if d ≥ 1.5 then 5 else if d < 1.25 then -10 else 0) =
      (if d ≥ 2 then (10 : ℚ) else 0) + (if 1.5 ≤ d ∧ d < 2 then 5 else 0) +
        (if d < 1.25 then -10 else 0) := by
  by_cases h2 : d ≥ 2
  · rw [if_pos h2, if_pos h2, if_neg (by rintro ⟨-, hb⟩; linarith),
      if_neg (by linarith)]
    norm_num
  · by_cases h15 : d ≥ 1.5
    · rw [if_neg h2, if_neg h2, if_pos h15, if_pos ⟨h15, lt_of_not_ge h2⟩,
        if_neg (by linarith)]
      norm_num
    · by_cases h125 : d < 1.25
      · rw [if_neg h2, if_neg h2, if_neg h15, if_pos h125,
          if_neg (by rintro ⟨ha, -⟩; exact h15 ha)]
        norm_num
      · rw [if_neg h2, if_neg h2, if_neg h15, if_neg h125,
          if_neg (by rintro ⟨ha, -⟩; exact h15 ha)]
        norm_num

/-- The else-if valuation adjustment chain of calculateDealScore as a sum of
the two disjoint band contributions. -/
theorem multAdjust_eq (em : ℚ) :
    (if em ≤ 4 then (10 : ℚ) else if em ≥ 7 then -10 else 0) =
      (if em ≤ 4 then (10 : ℚ) else 0) + (if em ≥ 7 then -10 else 0) := by
  by_cases h4 : em ≤ 4
  · rw [if_pos h4, if_pos h4, if_neg (by linarith)]
    norm_num
  · by_cases h7 : em ≥ 7
    · rw [if_neg h4, if_neg h4, if_pos h7]
      norm_num
    · rw [if_neg h4, if_neg h4, if_neg h7]
      norm_num

/-- calculateDealScore with the two adjustment chains factored out of the
baseline. -/
theorem calculateDealScore_decompose (m : CalculationResults) (s w : ℕ) :
    calculateDealScore m s w =
      min 100 (max 0 (70 +
        (if m.debtServiceCoverageRatio ≥ 2 then (10 : ℚ)
         else if m.debtServiceCoverageRatio ≥ 1.5 then 5
         else if m.debtServiceCoverageRatio < 1.25 then -10 else 0) +
        (if m.ebitdaMultiple ≤ 4 then (10 : ℚ)
         else if m.ebitdaMultiple ≥ 7 then -10 else 0) +
        (s : ℚ) * 3 - (w : ℚ) * 3)) := by
  simp only [calculateDealScore]
  split_ifs <;> (congr 1 <;> congr 1 <;> ring)

/-! ## Claim theorems -/

/-- Claim C1.  The claim says the projected cash-flow series has 6 entries
covering years 1 through 5 with the full declining schedule
[15%, 12%, 10%, 8%, 6%].  The code instead produces a 5-entry series: the
loop runs year = 0 .. projectedYears-1 and skips year 0, so only years 1-4
are projected and the 6% rate of the declared 5-element schedule is never
applied.  Entry 0 does equal minus the down payment, and each produced year
does equal round(grown EBITDA - total annual debt service - owner salary). -/
theorem projectedCashFlows_series (v : FormValues) :
    (calculateProjectedCashFlows v).length = 5 ∧
    (calculateProjectedCashFlows v).length ≠ 6 ∧
    calculateProjectedCashFlows v =
      [-(v.askingPrice * (v.downPayment / 100)),
       (jsRound (v.ebitda * (1 + 0.15) -
          calculateAnnualDebtService (v.askingPrice - v.askingPrice * (v.downPayment / 100))
            v.interestRate v.loanTerm - v.ownerSalary) : ℚ),
       (jsRound (v.ebitda * (1 + 0.15) * (1 + 0.12) -
          calculateAnnualDebtService (v.askingPrice - v.askingPrice * (v.downPayment / 100))
            v.interestRate v.loanTerm - v.ownerSalary) : ℚ),
       (jsRound (v.ebitda * (1 + 0.15) * (1 + 0.12) * (1 + 0.10) -
          calculateAnnualDebtService (v.askingPrice - v.askingPrice * (v.downPayment / 100))
            v.interestRate v.loanTerm - v.ownerSalary) : ℚ),
       (jsRound (v.ebitda * (1 + 0.15) * (1 + 0.12) * (1 + 0.10) * (1 + 0.08) -
          calculateAnnualDebtService (v.askingPrice - v.askingPrice * (v.downPayment / 100))
            v.interestRate v.loanTerm - v.ownerSalary) : ℚ)] := by
  rw [calculateProjectedCashFlows_eq]
  exact ⟨rfl, by norm_num, rfl⟩

/-- Claim C5: downPayment = askingPrice x downPaymentPct/100, sellerNote =
askingPrice x sellerNotePct/100, bankLoan = askingPrice - downPayment -
sellerNote with no guard, and for the default deal (2,500,000 at 5% down,
5% seller note) the bank loan is 2,250,000. -/
theorem financingSplit_spec (v : FormValues) :
    (calculateMetrics v).sellerNote = v.askingPrice * (v.sellerNote / 100) ∧
    (calculateMetrics v).bankLoan =
      v.askingPrice - v.askingPrice * (v.downPayment / 100) -
        v.askingPrice * (v.sellerNote / 100) ∧
    (calculateProjectedCashFlows v).head? =
      some (-(v.askingPrice * (v.downPayment / 100))) ∧
    (calculateMetrics initialValues).bankLoan = 2250000 := by
  refine ⟨rfl, rfl, ?_, by norm_num [calculateMetrics, initialValues]⟩
  rw [calculateProjectedCashFlows_eq]
  rfl

/-- Claim C7: the composite deal score is monotone non-decreasing in the
strength count, the weakness count and metrics held fixed. -/
theorem calculateDealScore_monotone_strengths (m : CalculationResults)
    (s1 s2 w : ℕ) (h : s1 ≤ s2) :
    calculateDealScore m s1 w ≤ calculateDealScore m s2 w := by
  simp only [calculateDealScore]
  have hc : ((s1 : ℚ)) * 3 ≤ (s2 : ℚ) * 3 := by
    have hq : ((s1 : ℚ)) ≤ (s2 : ℚ) := by exact_mod_cast h
    linarith
  apply min_le_min le_rfl
  apply max_le_max le_rfl
  linarith

/-- Witness for C7 at a concrete metrics record and counts 0 ≤ 1. -/
theorem calculateDealScore_monotone_strengths_witness :
    calculateDealScore sampleMetrics 0 1 ≤ calculateDealScore sampleMetrics 1 1 :=
  calculateDealScore_monotone_strengths sampleMetrics 0 1 1 (by norm_num)

/-- Claim C8: the NPV of any cash-flow sequence at discount rate 0 is the
plain sum of its entries. -/
theorem calculateNPV_zeroRate_eq_sum (cashFlows : List ℚ) :
    calculateNPV cashFlows 0 = cashFlows.sum := by
  have h := npvAux_zero_rate cashFlows 0 0
  simpa [calculateNPV] using h

/-- Claim C9: for a positive rate and term, amortizing the bank loan and the
seller note separately and summing (the calculateMetrics path) equals
amortizing the combined principal in one call (the cash-flow projection
path), the annuity payment being linear in the principal. -/
theorem totalDebtService_split_eq_combined (v : FormValues)
    (_hrate : 0 < v.interestRate) (_hterm : 0 < v.loanTerm) :
    (calculateMetrics v).totalDebtService =
      calculateAnnualDebtService
        ((calculateMetrics v).bankLoan + (calculateMetrics v).sellerNote)
        v.interestRate v.loanTerm ∧
    ∀ p1 p2 : ℚ,
      calculateAnnualDebtService p1 v.interestRate v.loanTerm +
          calculateAnnualDebtService p2 v.interestRate v.loanTerm =
        calculateAnnualDebtService (p1 + p2) v.interestRate v.loanTerm := by
  exact ⟨calculateAnnualDebtService_add _ _ _ _,
    fun p1 p2 => calculateAnnualDebtService_add p1 p2 _ _⟩

/-- Witness for C9 at the default form values (rate 10, term 10). -/
theorem totalDebtService_split_eq_combined_witness :
    (calculateMetrics initialValues).totalDebtService =
      calculateAnnualDebtService
        ((calculateMetrics initialValues).bankLoan + (calculateMetrics initialValues).sellerNote)
        initialValues.interestRate initialValues.loanTerm :=
  (totalDebtService_split_eq_combined initialValues (by norm_num [initialValues])
    (by norm_num [initialValues])).1

/-- Claim C10: the IRR approximation divides by the absolute year-0 flow with
no guard; it is a well-defined (non-NaN, modelled non-none) value exactly
when the down payment is nonzero, and a zero down-payment percentage forces
the divisor to zero. -/
theorem calculateIRR_defined_iff (v : FormValues) :
    (v.downPayment = 0 → calculateIRR (calculateProjectedCashFlows v) = none) ∧
    (calculateIRR (calculateProjectedCashFlows v) ≠ none ↔
      v.askingPrice * (v.downPayment / 100) ≠ 0) := by
  rw [calculateProjectedCashFlows_eq]
  constructor
  · intro h0
    simp [calculateIRR, h0]
  · by_cases hc : v.askingPrice * (v.downPayment / 100) = 0
    · simp [calculateIRR, hc]
    · simp [calculateIRR, hc]

/-- Witness for C10: a zero down-payment percentage on the default deal makes
the IRR division ill-defined. -/
theorem calculateIRR_defined_iff_witness :
    calculateIRR (calculateProjectedCashFlows zeroDownValues) = none :=
  (calculateIRR_defined_iff zeroDownValues).1 rfl

/-- Claim C3: the composite deal score is the clamp to [0,100] of 70 plus the
independent DSCR-band, valuation-band, strength and weakness adjustments, and
the recommendation tiers are the stated thresholds. -/
theorem calculateDealScore_spec (m : CalculationResults) (s w : ℕ) :
    calculateDealScore m s w =
      min 100 (max 0 (70 +
        (if m.debtServiceCoverageRatio ≥ 2 then (10 : ℚ) else 0) +
        (if 1.5 ≤ m.debtServiceCoverageRatio ∧ m.debtServiceCoverageRatio < 2 then 5 else 0) +
        (if m.debtServiceCoverageRatio < 1.25 then -10 else 0) +
        (if m.ebitdaMultiple ≤ 4 then 10 else 0) +
        (if m.ebitdaMultiple ≥ 7 then -10 else 0) +
        3 * (s : ℚ) - 3 * (w : ℚ))) ∧
    (∀ score : ℚ,
      (score ≥ 85 → recommendationForScore score = Recommendation.strongBuy) ∧
      (score ≥ 70 ∧ score < 85 → recommendationForScore score = Recommendation.buy) ∧
      (score ≥ 50 ∧ score < 70 → recommendationForScore score = Recommendation.neutral) ∧
      (score ≥ 30 ∧ score < 50 → recommendationForScore score = Recommendation.caution) ∧
      (score < 30 → recommendationForScore score = Recommendation.pass)) := by
  constructor
  · rw [calculateDealScore_decompose, dscrAdjust_eq, multAdjust_eq]
    congr 1
    congr 1
    ring
  · intro score
    refine ⟨fun h => ?_, fun h => ?_, fun h => ?_, fun h => ?_, fun h => ?_⟩
    · simp only [recommendationForScore]
      rw [if_pos h]
    · obtain ⟨h1, h2⟩ := h
      simp only [recommendationForScore]
      rw [if_neg (by linarith), if_pos h1]
    · obtain ⟨h1, h2⟩ := h
      simp only [recommendationForScore]
      rw [if_neg (by linarith), if_neg (by linarith), if_pos h1]
    · obtain ⟨h1, h2⟩ := h
      simp only [recommendationForScore]
      rw [if_neg (by linarith), if_neg (by linarith), if_neg (by linarith), if_pos h1]
    · simp only [recommendationForScore]
      rw [if_neg (by linarith), if_neg (by linarith), if_neg (by linarith),
        if_neg (by linarith)]

/-- Witness for C3: the tier characterization applied at score 90. -/
theorem calculateDealScore_spec_witness :
    recommendationForScore 90 = Recommendation.strongBuy :=
  (((calculateDealScore_spec sampleMetrics 3 2).2 90).1) (by norm_num)

/-- Claim C4: the risk score is the clamp to [0,100] of 100 minus the excess
revenue penalty, the margin penalty, plus the industry adjustment, minus half
the recurring revenue, minus the capped competition penalty. -/
theorem calculateRiskScore_spec (v : FormValues) :
    calculateRiskScore v = max 0 (min 100 (100 -
      (if v.revenue > 2000000 then (v.revenue - 2000000) * 1.5 else 0) -
      (if v.ebitda / v.askingPrice > 0.3 then 10 else 0) +
      (if v.industry = Industry.tech then 10
       else if v.industry = Industry.retail then 5
       else if v.industry = Industry.manufacturing then -10 else 0) -
      v.recurringRevenue * 0.5 -
      min (v.askingPrice * 2) 20)) := by
  obtain ⟨ap, rev, eb, os, rr, tcr, yib, dp, sn, ir, lt, ind⟩ := v
  cases ind <;> simp only [calculateRiskScore] <;> norm_num <;> split_ifs <;>
    first
    | contradiction
    | (congr 1 <;> congr 1 <;> ring)

/-- The risk score is clamped into [0,100] by construction. -/
theorem calculateRiskScore_mem (v : FormValues) :
    0 ≤ calculateRiskScore v ∧ calculateRiskScore v ≤ 100 := by
  simp only [calculateRiskScore]
  exact ⟨le_max_left _ _, max_le (by norm_num) (min_le_left _ _)⟩

/-- The market position score is clamped into [0,100] by construction. -/
theorem calculateMarketScore_mem (v : FormValues) :
    0 ≤ calculateMarketScore v ∧ calculateMarketScore v ≤ 100 := by
  simp only [calculateMarketScore]
  exact ⟨le_max_left _ _, max_le (by norm_num) (min_le_left _ _)⟩

/-- The competitive threat lies in [0,100] for non-negative inputs: the cap
gives the upper bound and non-negative summands give the lower one. -/
theorem calculateCompetitiveThreat_mem (v : FormValues)
    (hap : 0 ≤ v.askingPrice) (hrr : 0 ≤ v.recurringRevenue) :
    0 ≤ calculateCompetitiveThreat v ∧ calculateCompetitiveThreat v ≤ 100 := by
  obtain ⟨ap, rev, eb, os, rr, tcr, yib, dp, sn, ir, lt, ind⟩ := v
  cases ind <;> simp only [calculateCompetitiveThreat] <;>
    exact ⟨le_min (by norm_num) (by dsimp only at hap hrr ⊢; linarith), min_le_left _ _⟩

/-- The growth potential is non-negative for non-negative recurring revenue. -/
theorem calculateGrowthPotential_nonneg (v : FormValues)
    (hrr : 0 ≤ v.recurringRevenue) :
    0 ≤ calculateGrowthPotential v := by
  obtain ⟨ap, rev, eb, os, rr, tcr, yib, dp, sn, ir, lt, ind⟩ := v
  cases ind <;> simp only [calculateGrowthPotential] <;> dsimp only at hrr ⊢ <;>
    norm_num <;> linarith

/-- Claim C6: for non-negative numeric inputs, riskScore, marketPositionScore
and competitiveThreat lie in [0,100], and growthPotential, once clamped by
the 100 cap, also lies in [0,100]. -/
theorem qualitativeScores_bounded (v : FormValues)
    (hap : 0 ≤ v.askingPrice) (_hrev : 0 ≤ v.revenue) (_heb : 0 ≤ v.ebitda)
    (_hos : 0 ≤ v.ownerSalary) (hrr : 0 ≤ v.recurringRevenue)
    (_htcr : 0 ≤ v.topCustomerRevenue) (_hyib : 0 ≤ v.yearsInBusiness)
    (_hdp : 0 ≤ v.downPayment) (_hsn : 0 ≤ v.sellerNote) (_hir : 0 ≤ v.interestRate) :
    (0 ≤ calculateRiskScore v ∧ calculateRiskScore v ≤ 100) ∧
    (0 ≤ calculateMarketScore v ∧ calculateMarketScore v ≤ 100) ∧
    (0 ≤ calculateCompetitiveThreat v ∧ calculateCompetitiveThreat v ≤ 100) ∧
    (0 ≤ min 100 (calculateGrowthPotential v) ∧
      min 100 (calculateGrowthPotential v) ≤ 100) :=
  ⟨calculateRiskScore_mem v, calculateMarketScore_mem v,
    calculateCompetitiveThreat_mem v hap hrr,
    le_min (by norm_num) (calculateGrowthPotential_nonneg v hrr), min_le_left _ _⟩

/-- Witness for C6 at the default form values. -/
theorem qualitativeScores_bounded_witness :
    (0 ≤ calculateRiskScore initialValues ∧ calculateRiskScore initialValues ≤ 100) ∧
    (0 ≤ calculateMarketScore initialValues ∧ calculateMarketScore initialValues ≤ 100) ∧
    (0 ≤ calculateCompetitiveThreat initialValues ∧
      calculateCompetitiveThreat initialValues ≤ 100) ∧
    (0 ≤ min 100 (calculateGrowthPotential initialValues) ∧
      min 100 (calculateGrowthPotential initialValues) ≤ 100) :=
  qualitativeScores_bounded initialValues (by norm_num [initialValues])
    (by norm_num [initialValues]) (by norm_num [initialValues])
    (by norm_num [initialValues]) (by norm_num [initialValues])
    (by norm_num [initialValues]) (by norm_num [initialValues])
    (by norm_num [initialValues]) (by norm_num [initialValues])
    (by norm_num [initialValues])

/-- Claim C2 (amended count).  With industry = services the deal evaluator
appends exactly five fixed findings, not four as claimed: the strengths list
is unchanged, the weaknesses gain one entry, the opportunities two, and the
threats two, relative to the same metrics under any non-services industry. -/
theorem analyzeDeal_services_five_findings (m : CalculationResults)
    (h : m.industry = Industry.services) :
    (analyzeDeal m).strengths = (analyzeDeal (setIndustry m Industry.other)).strengths ∧
    (analyzeDeal m).weaknesses =
      (analyzeDeal (setIndustry m Industry.other)).weaknesses ++
        [Finding.seasonalFluctuations] ∧
    (analyzeDeal m).opportunities =
      (analyzeDeal (setIndustry m Industry.other)).opportunities ++
        [Finding.growingHVACDemand, Finding.energyEfficiencyUpgrades] ∧
    (analyzeDeal m).threats =
      (analyzeDeal (setIndustry m Industry.other)).threats ++
        [Finding.laborMarketChallenges, Finding.supplyChainRisks] ∧
    totalFindings (analyzeDeal m) =
      totalFindings (analyzeDeal (setIndustry m Industry.other)) + 5 := by
  have hs : (analyzeDeal m).strengths =
      (analyzeDeal (setIndustry m Industry.other)).strengths := by
    simp [analyzeDeal, setIndustry, h]
  have hw : (analyzeDeal m).weaknesses =
      (analyzeDeal (setIndustry m Industry.other)).weaknesses ++
        [Finding.seasonalFluctuations] := by
    simp [analyzeDeal, setIndustry, h]
  have ho : (analyzeDeal m).opportunities =
      (analyzeDeal (setIndustry m Industry.other)).opportunities ++
        [Finding.growingHVACDemand, Finding.energyEfficiencyUpgrades] := by
    simp [analyzeDeal, setIndustry, h]
  have ht : (analyzeDeal m).threats =
      (analyzeDeal (setIndustry m Industry.other)).threats ++
        [Finding.laborMarketChallenges, Finding.supplyChainRisks] := by
    simp [analyzeDeal, setIndustry, h]
  refine ⟨hs, hw, ho, ht, ?_⟩
  simp only [totalFindings, hs, hw, ho, ht, List.length_append, List.length_cons,
    List.length_nil]
  omega

/-- Witness for C2 at a concrete services-industry metrics record. -/
theorem analyzeDeal_services_five_findings_witness :
    totalFindings (analyzeDeal sampleMetrics) =
      totalFindings (analyzeDeal (setIndustry sampleMetrics Industry.other)) + 5 :=
  (analyzeDeal_services_five_findings sampleMetrics rfl).2.2.2.2

/-- Counterexample for C2 as stated: at a concrete services-industry input the
number of additional findings is five, not four. -/
theorem analyzeDeal_services_not_four_findings :
    totalFindings (analyzeDeal sampleMetrics) =
      totalFindings (analyzeDeal (setIndustry sampleMetrics Industry.other)) + 5 ∧
    totalFindings (analyzeDeal sampleMetrics) ≠
      totalFindings (analyzeDeal (setIndustry sampleMetrics Industry.other)) + 4 := by
  have hcount : totalFindings (analyzeDeal sampleMetrics) = 10 := by
    simp [totalFindings, analyzeDeal, sampleMetrics]
    norm_num
  have hcount2 : totalFindings (analyzeDeal (setIndustry sampleMetrics Industry.other)) = 5 := by
    simp [totalFindings, analyzeDeal, setIndustry, sampleMetrics]
    norm_num
  rw [hcount, hcount2]
  omega

end BizAcq
